import Mathlib

/-!
Verification of the metrics collection → threshold alerting → health scoring
pipeline of `scripts/performance-monitoring.py`.

The embedding models timestamps as integers (seconds), numeric measurements as
rationals, and the SQLite tables as in-memory lists of rows.  Python truthiness
of optional numeric thresholds (`if metric.threshold_critical:`) is modelled by
`thresholdTruthy`: `None` and `0` are falsy, every other number is truthy.
-/

/-- Auxiliary mapping type standing for a JSON metadata dictionary
(`Dict[str, Any]` serialised with `json.dumps` / `json.loads`, which round-trips
faithfully on such values). -/
abbrev Metadata : Type := List (String × String)

/-- Embedding of the `PerformanceMetric` dataclass. -/
structure PerformanceMetric where
  timestamp : Int
  metric_name : String
  value : ℚ
  unit : String
  threshold_warning : Option ℚ := none
  threshold_critical : Option ℚ := none
  metadata : Option Metadata := none
deriving DecidableEq, Repr

/-- Embedding of the `PerformanceAlert` dataclass. -/
structure PerformanceAlert where
  timestamp : Int
  alert_type : String
  metric_name : String
  current_value : ℚ
  threshold : ℚ
  message : String
  severity : String
  resolved : Bool := false
  resolved_at : Option Int := none
deriving DecidableEq, Repr

/-- Embedding of the `SystemHealth` dataclass. -/
structure SystemHealth where
  timestamp : Int
  health_score : ℚ
  status : String
  active_alerts : Nat
  performance_grade : String
  bottlenecks : List String
  recommendations : List String
deriving DecidableEq, Repr

/-- Python truthiness of an optional numeric threshold: `None` and `0` are
falsy, any other number is truthy (`if metric.threshold_critical:` etc.). -/
def thresholdTruthy : Option ℚ → Bool
  | none => false
  | some x => decide (x ≠ 0)

/-- Guard of the critical branch of `AlertManager.check_metric_thresholds`:
`metric.threshold_critical and metric.value >= metric.threshold_critical`. -/
def critGuard (m : PerformanceMetric) : Bool :=
  thresholdTruthy m.threshold_critical && decide (m.threshold_critical.getD 0 ≤ m.value)

/-- Guard of the warning branch of `AlertManager.check_metric_thresholds`:
`metric.threshold_warning and metric.value >= metric.threshold_warning`. -/
def warnGuard (m : PerformanceMetric) : Bool :=
  thresholdTruthy m.threshold_warning && decide (m.threshold_warning.getD 0 ≤ m.value)

/-- The critical alert built in `check_metric_thresholds`. -/
def criticalAlertOf (m : PerformanceMetric) : PerformanceAlert :=
  { timestamp := m.timestamp
    alert_type := "critical"
    metric_name := m.metric_name
    current_value := m.value
    threshold := m.threshold_critical.getD 0
    message := m.metric_name ++ " is critically high: " ++ toString m.value ++ " "
      ++ m.unit ++ " (threshold: " ++ toString (m.threshold_critical.getD 0) ++ ")"
    severity := "critical" }

/-- The warning alert built in `check_metric_thresholds`. -/
def warningAlertOf (m : PerformanceMetric) : PerformanceAlert :=
  { timestamp := m.timestamp
    alert_type := "warning"
    metric_name := m.metric_name
    current_value := m.value
    threshold := m.threshold_warning.getD 0
    message := m.metric_name ++ " is elevated: " ++ toString m.value ++ " "
      ++ m.unit ++ " (threshold: " ++ toString (m.threshold_warning.getD 0) ++ ")"
    severity := "warning" }

/-- The recovery alert built in `check_metric_thresholds`; the code sets
`threshold=metric.threshold_warning or 0`, which coincides with `getD 0`
(Python `or` yields `0` exactly when the threshold is `None` or `0`). -/
def recoveryAlertOf (m : PerformanceMetric) : PerformanceAlert :=
  { timestamp := m.timestamp
    alert_type := "recovery"
    metric_name := m.metric_name
    current_value := m.value
    threshold := m.threshold_warning.getD 0
    message := m.metric_name ++ " has recovered: " ++ toString m.value ++ " " ++ m.unit
    severity := "info"
    resolved := true
    resolved_at := some m.timestamp }

/-- Classification part of `AlertManager.check_metric_thresholds` (the value of
the local variable `alert` just before the cooldown check), given the list of
active alerts returned by the database. -/
def classifyMetric (active : List PerformanceAlert) (m : PerformanceMetric) :
    Option PerformanceAlert :=
  if critGuard m then some (criticalAlertOf m)
  else if warnGuard m then some (warningAlertOf m)
  else if (active.filter (fun a => a.metric_name == m.metric_name)).isEmpty then none
  else some (recoveryAlertOf m)

/-- A stored row of the `performance_metrics` table (the fields read back by
`get_recent_metrics`; `metadata` is `NULL` unless the in-memory dictionary was
truthy, since `store_metric` writes `json.dumps(metric.metadata) if
metric.metadata else None`). -/
structure MetricRow where
  timestamp : Int
  metric_name : String
  value : ℚ
  unit : String
  threshold_warning : Option ℚ
  threshold_critical : Option ℚ
  metadata : Option Metadata
deriving DecidableEq, Repr

/-- Python truthiness of the optional metadata dictionary: `None` and the empty
dictionary are falsy. -/
def metadataTruthy : Option Metadata → Bool
  | none => false
  | some d => !(List.isEmpty d)

/-- State of the `performance_metrics` and `performance_alerts` tables of
`PerformanceDatabase` (append-only lists of rows in insertion order). -/
structure Database where
  metrics : List MetricRow
  alerts : List PerformanceAlert
deriving DecidableEq, Repr

/-- The row `store_metric` inserts for a sample (`metadata` is `NULL` unless
the dictionary is truthy). -/
def metricRowOf (m : PerformanceMetric) : MetricRow :=
  { timestamp := m.timestamp
    metric_name := m.metric_name
    value := m.value
    unit := m.unit
    threshold_warning := m.threshold_warning
    threshold_critical := m.threshold_critical
    metadata := if metadataTruthy m.metadata then m.metadata else none }

/-- Embedding of `PerformanceDatabase.store_metric`: inserts one new row. -/
def store_metric (db : Database) (m : PerformanceMetric) : Database :=
  { db with metrics := db.metrics ++ [metricRowOf m] }

/-- Embedding of `PerformanceDatabase.store_alert`: inserts one new row, never
updates an existing one. -/
def store_alert (db : Database) (a : PerformanceAlert) : Database :=
  { db with alerts := db.alerts ++ [a] }

/-- Reconstruction of a `PerformanceMetric` from a row, as done by
`get_recent_metrics` (`json.loads(row[6]) if row[6] else None`; a stored
serialised dictionary is a non-empty string, hence truthy). -/
def rowToMetric (r : MetricRow) : PerformanceMetric :=
  { timestamp := r.timestamp
    metric_name := r.metric_name
    value := r.value
    unit := r.unit
    threshold_warning := r.threshold_warning
    threshold_critical := r.threshold_critical
    metadata := r.metadata }

/-- ORDER BY timestamp DESC over metric rows (a stable sort; SQLite does not
specify the order of rows with equal keys). -/
def orderByTimestampDescM (l : List MetricRow) : List MetricRow :=
  l.insertionSort (fun a b => b.timestamp ≤ a.timestamp)

/-- ORDER BY timestamp DESC over alert rows. -/
def orderByTimestampDescA (l : List PerformanceAlert) : List PerformanceAlert :=
  l.insertionSort (fun a b => b.timestamp ≤ a.timestamp)

/-- Embedding of `PerformanceDatabase.get_recent_metrics`: rows with the given
name and `timestamp >= now - hours`, newest first (`now - hours * 3600` is the
instant `(datetime.now() - timedelta(hours=hours)).isoformat()`; ISO-8601
strings compare chronologically). -/
def get_recent_metrics (db : Database) (name : String) (now hours : Int) :
    List PerformanceMetric :=
  (orderByTimestampDescM (db.metrics.filter
      (fun r => r.metric_name == name && decide (now - hours * 3600 ≤ r.timestamp)))).map
    rowToMetric

/-- Embedding of `PerformanceDatabase.get_active_alerts`: all rows with
`resolved = FALSE`, newest first. -/
def get_active_alerts (db : Database) : List PerformanceAlert :=
  orderByTimestampDescA (db.alerts.filter (fun a => a.resolved == false))

/-- Embedding of `AlertManager._get_recent_alerts_for_metric`. -/
def get_recent_alerts_for_metric (db : Database) (name : String) :
    List PerformanceAlert :=
  (get_active_alerts db).filter (fun a => a.metric_name == name)

/-- The `AlertManager.alert_cooldown` window, `timedelta(minutes=15)`, in
seconds. -/
def alert_cooldown : Int := 15 * 60

/-- Cooldown key `f"{alert.metric_name}_{alert.alert_type}"`. -/
def cooldown_key (a : PerformanceAlert) : String :=
  a.metric_name ++ "_" ++ a.alert_type

/-- Lookup in the `recent_alerts` dictionary (modelled as an association
list). -/
def dict_get (d : List (String × Int)) (k : String) : Option Int :=
  (d.find? (fun p => p.1 == k)).map (fun p => p.2)

/-- Assignment `d[k] = v` on the dictionary model. -/
def dict_set (d : List (String × Int)) (k : String) (v : Int) : List (String × Int) :=
  (k, v) :: d.filter (fun p => !(p.1 == k))

/-- Embedding of `AlertManager._is_in_cooldown`, returning the boolean result
together with the updated `recent_alerts` dictionary.  The timestamp is written
only on the paths that return `False`: the suppression path returns `True`
before reaching the assignment. -/
def is_in_cooldown (now : Int) (ra : List (String × Int)) (a : PerformanceAlert) :
    Bool × List (String × Int) :=
  let key := cooldown_key a
  match dict_get ra key with
  | some t =>
      if now - t < alert_cooldown then (true, ra)
      else (false, dict_set ra key now)
  | none => (false, dict_set ra key now)

/-- Mutable state of an `AlertManager` together with its database and the
stream of alerts handed to the registered notification handlers. -/
structure AMState where
  recent_alerts : List (String × Int)
  db : Database
  notified : List PerformanceAlert
deriving DecidableEq, Repr

/-- Embedding of `AlertManager._send_alert`: persist the alert, then pass it to
every registered notification handler (handler exceptions are caught and do not
affect the state). -/
def send_alert (s : AMState) (a : PerformanceAlert) : AMState :=
  { s with db := store_alert s.db a, notified := s.notified ++ [a] }

/-- Embedding of `AlertManager.check_metric_thresholds` (the evaluator's
`evaluate`): classify the sample, then apply the cooldown check (only reached
for a non-null classification, by Python `and` short-circuiting), and dispatch
when not suppressed.  Returns the dispatched alert (or `none`) and the new
state. -/
def check_metric_thresholds (now : Int) (s : AMState) (m : PerformanceMetric) :
    Option PerformanceAlert × AMState :=
  match classifyMetric (get_active_alerts s.db) m with
  | none => (none, s)
  | some a =>
      let c := is_in_cooldown now s.recent_alerts a
      if c.1 then (none, { s with recent_alerts := c.2 })
      else (some a, send_alert { s with recent_alerts := c.2 } a)

/-- Fixed recommendation string appended when bottlenecks are non-empty. -/
def recBottlenecks : String := "Address performance bottlenecks identified"

/-- Fixed recommendation string appended when a critical alert is present. -/
def recCriticalAlerts : String := "Immediately resolve critical performance alerts"

/-- Fixed recommendation string appended when the score is below 80. -/
def recCapacity : String := "Review system capacity and resource allocation"

/-- One iteration of the deduction loop of
`PerformanceMonitoringSystem._calculate_system_health`: the accumulator is the
pair (current score, bottleneck list). -/
def healthStep (acc : ℚ × List String) (m : PerformanceMetric) : ℚ × List String :=
  if critGuard m then
    (acc.1 - 20, acc.2 ++ [m.metric_name ++ " is critical (" ++ toString m.value
      ++ " " ++ m.unit ++ ")"])
  else if warnGuard m then
    (acc.1 - 10, acc.2 ++ [m.metric_name ++ " is elevated (" ++ toString m.value
      ++ " " ++ m.unit ++ ")"])
  else acc

/-- Python `max(a, b)` on rationals (`a` on ties). -/
def pyMax (a b : ℚ) : ℚ := if b ≤ a then a else b

/-- Python `min(a, b)` on rationals (`a` on ties). -/
def pyMin (a b : ℚ) : ℚ := if a ≤ b then a else b

/-- Status and grade ladder of `_calculate_system_health`. -/
def statusGradeOf (health_score : ℚ) : String × String :=
  if 90 ≤ health_score then ("healthy", "A")
  else if 75 ≤ health_score then ("good", "B")
  else if 60 ≤ health_score then ("degraded", "C")
  else if 40 ≤ health_score then ("poor", "D")
  else ("critical", "F")

/-- Embedding of `PerformanceMonitoringSystem._calculate_system_health`.  The
instant `now` stands for the `datetime.now().isoformat()` read at the top of
the function; everything else depends only on the arguments. -/
def calculate_system_health (now : Int) (metrics : List PerformanceMetric)
    (alerts : List PerformanceAlert) : SystemHealth :=
  let p := metrics.foldl healthStep (100, [])
  let critical_alerts := alerts.filter (fun a => a.severity == "critical")
  let warning_alerts := alerts.filter (fun a => a.severity == "warning")
  let deducted := p.1 - (critical_alerts.length : ℚ) * 15 - (warning_alerts.length : ℚ) * 5
  let health_score := pyMax 0 (pyMin 100 deducted)
  let sg : String × String := statusGradeOf health_score
  { timestamp := now
    health_score := health_score
    status := sg.1
    active_alerts := alerts.length
    performance_grade := sg.2
    bottlenecks := p.2
    recommendations :=
      (if p.2.isEmpty then [] else [recBottlenecks]) ++
      (if critical_alerts.isEmpty then [] else [recCriticalAlerts]) ++
      (if health_score < 80 then [recCapacity] else []) }

/-- Number of samples taken by the critical branch of the deduction loop. -/
def critBreachCount (metrics : List PerformanceMetric) : Nat :=
  (metrics.filter (fun m => critGuard m)).length

/-- Number of remaining samples taken by the warning branch of the deduction
loop. -/
def warnBreachCount (metrics : List PerformanceMetric) : Nat :=
  (metrics.filter (fun m => !critGuard m && warnGuard m)).length

/-- Number of critical-severity alerts in a cycle. -/
def criticalSeverityCount (alerts : List PerformanceAlert) : Nat :=
  (alerts.filter (fun a => a.severity == "critical")).length

/-- Number of warning-severity alerts in a cycle. -/
def warningSeverityCount (alerts : List PerformanceAlert) : Nat :=
  (alerts.filter (fun a => a.severity == "warning")).length

/-- Number of samples with `value >= thresholdCritical` where the threshold is
merely present (`isSome`), as the claim's words read, with no truthiness
filtering. -/
def specCritCount (metrics : List PerformanceMetric) : Nat :=
  (metrics.filter (fun m => m.threshold_critical.isSome
    && decide (m.threshold_critical.getD 0 ≤ m.value))).length

/-- Number of remaining samples with `value >= thresholdWarning` where the
threshold is merely present. -/
def specWarnCount (metrics : List PerformanceMetric) : Nat :=
  (metrics.filter (fun m => !(m.threshold_critical.isSome
      && decide (m.threshold_critical.getD 0 ≤ m.value))
    && (m.threshold_warning.isSome
      && decide (m.threshold_warning.getD 0 ≤ m.value)))).length

/-- Health score as the spec's words read, where a sample counts against the
score whenever its threshold is present (`isSome`), with no truthiness
filtering; kept separate from `calculate_system_health` for comparison. -/
def specClaimHealthScore (metrics : List PerformanceMetric)
    (alerts : List PerformanceAlert) : ℚ :=
  pyMax 0 (pyMin 100 (100 - 20 * (specCritCount metrics : ℚ)
    - 10 * (specWarnCount metrics : ℚ)
    - 15 * (criticalSeverityCount alerts : ℚ) - 5 * (warningSeverityCount alerts : ℚ)))

/-- Outcomes of the probes of one `SystemPerformanceMonitor.collect_metrics`
call: each sub-step either raises (modelled by `Except.error`) or yields the
measured value together with the opaque metadata payload attached to the
sample.  `diskIoCounters` may also report absence (`psutil.disk_io_counters()`
returning `None`).  `loadavg` failures stand for the `AttributeError`/`OSError`
caught locally; `netProbeResults` are the per-host connect attempts of
`_test_network_latency`. -/
structure SysEnv where
  cpu : Except Unit (ℚ × Metadata)
  memory : Except Unit (ℚ × Metadata)
  disk : Except Unit (ℚ × Metadata)
  diskIoCounters : Except Unit (Option (ℚ × Metadata))
  loadavg : Except Unit (ℚ × ℚ × ℚ)
  netProbeResults : List (Except Unit ℚ)
deriving Repr

/-- Static threshold table `SystemPerformanceMonitor.thresholds`
(warning, critical). -/
def sys_thresholds (name : String) : ℚ × ℚ :=
  if name = "cpu_usage" then (70, 85)
  else if name = "memory_usage" then (75, 90)
  else if name = "disk_usage" then (80, 95)
  else if name = "disk_io_latency" then (100, 500)
  else if name = "network_latency" then (200, 1000)
  else if name = "load_average" then (2, 5)
  else (0, 0)

/-- Sample built by a system sub-step from the threshold table. -/
def sysMetric (ts : Int) (name unitName : String) (v : ℚ) (md : Option Metadata) :
    PerformanceMetric :=
  { timestamp := ts
    metric_name := name
    value := v
    unit := unitName
    threshold_warning := some (sys_thresholds name).1
    threshold_critical := some (sys_thresholds name).2
    metadata := md }

/-- Embedding of `SystemPerformanceMonitor._test_network_latency`: mean of the
successful connect latencies, `None` when every probe failed. -/
def test_network_latency (probes : List (Except Unit ℚ)) : Option ℚ :=
  let ls := probes.filterMap (fun h => match h with
    | Except.ok v => some v
    | Except.error _ => none)
  if ls.isEmpty then none else some (ls.sum / (ls.length : ℚ))

/-- Samples of the disk-I/O sub-step: none when `psutil.disk_io_counters()`
reports no counters. -/
def diskIoStepMetrics (ts : Int) (o : Option (ℚ × Metadata)) : List PerformanceMetric :=
  match o with
  | none => []
  | some p => [sysMetric ts "disk_io_latency" "ms" p.1 (some p.2)]

/-- Samples of the load-average sub-step: its `AttributeError`/`OSError` is
caught locally and the sample is simply omitted. -/
def loadStepMetrics (ts : Int) (envLoad : Except Unit (ℚ × ℚ × ℚ)) :
    List PerformanceMetric :=
  match envLoad with
  | Except.error _ => []
  | Except.ok l => [sysMetric ts "load_average" "ratio" l.1
      (some [("load_1min", toString l.1), ("load_5min", toString l.2.1),
             ("load_15min", toString l.2.2)])]

/-- Samples of the network-latency sub-step: per-host failures are skipped
inside `_test_network_latency`, and the sample is omitted when every probe
failed. -/
def netStepMetrics (ts : Int) (probes : List (Except Unit ℚ)) :
    List PerformanceMetric :=
  match test_network_latency probes with
  | none => []
  | some v => [sysMetric ts "network_latency" "ms" v none]

/-- The sub-steps of `SystemPerformanceMonitor.collect_metrics` in program
order, each yielding the samples it appends, or the exception it lets escape to
the single surrounding `try`.  The load-average and network sub-steps handle
their failures locally and never escape. -/
def sys_steps (ts : Int) (env : SysEnv) : List (Except Unit (List PerformanceMetric)) :=
  [ env.cpu.map (fun p => [sysMetric ts "cpu_usage" "percent" p.1 (some p.2)]),
    env.memory.map (fun p => [sysMetric ts "memory_usage" "percent" p.1 (some p.2)]),
    env.disk.map (fun p => [sysMetric ts "disk_usage" "percent" p.1 (some p.2)]),
    env.diskIoCounters.map (fun o => diskIoStepMetrics ts o),
    Except.ok (loadStepMetrics ts env.loadavg),
    Except.ok (netStepMetrics ts env.netProbeResults) ]

/-- Sequential execution of sub-steps under one surrounding `try`: samples are
accumulated until the first escaping exception, which aborts the remaining
sub-steps; the flag records whether an exception escaped. -/
def run_sub_steps : List (Except Unit (List PerformanceMetric)) →
    List PerformanceMetric × Bool
  | [] => ([], false)
  | Except.error _ :: _ => ([], true)
  | Except.ok ms :: rest =>
      let r := run_sub_steps rest
      (ms ++ r.1, r.2)

/-- Embedding of `SystemPerformanceMonitor.collect_metrics`: the outer
`try/except` catches any escaping exception, logs it, and returns the samples
accumulated so far, so the call itself never raises. -/
def sys_collect_metrics (ts : Int) (env : SysEnv) : List PerformanceMetric :=
  (run_sub_steps (sys_steps ts env)).1

/-- Core operations against the shared state: storing a metric, storing an
alert directly, and one evaluator call. -/
inductive CoreOp where
  | opStoreMetric : PerformanceMetric → CoreOp
  | opStoreAlert : PerformanceAlert → CoreOp
  | opEvaluate : Int → PerformanceMetric → CoreOp

/-- Effect of one core operation on the shared state. -/
def applyOp (s : AMState) : CoreOp → AMState
  | CoreOp.opStoreMetric m => { s with db := store_metric s.db m }
  | CoreOp.opStoreAlert a => { s with db := store_alert s.db a }
  | CoreOp.opEvaluate t m => (check_metric_thresholds t s m).2

/-- Effect of a sequence of core operations. -/
def applyOps (s : AMState) (ops : List CoreOp) : AMState :=
  ops.foldl applyOp s

/-- The scenario sample of the spec: `cpu_usage` at 92 with warning 70 and
critical 85. -/
def cpuSample92 : PerformanceMetric :=
  { timestamp := 0, metric_name := "cpu_usage", value := 92, unit := "percent"
    threshold_warning := some 70, threshold_critical := some 85, metadata := none }

/-- The critical alert the evaluator raises for `cpuSample92`. -/
def cpuCritAlert92 : PerformanceAlert := criticalAlertOf cpuSample92

/-- Concrete sample whose warning threshold is 0: it satisfies
`thresholdWarning <= value < thresholdCritical` with both thresholds present,
yet the code classifies nothing (Python treats the threshold 0 as falsy). -/
def warnZeroSample : PerformanceMetric :=
  { timestamp := 0, metric_name := "disk_usage", value := 5, unit := "percent"
    threshold_warning := some 0, threshold_critical := some 10, metadata := none }

/-- Concrete sample whose critical threshold is 0 and whose value exceeds it:
the code applies no deduction for it (threshold 0 is falsy). -/
def critZeroSample : PerformanceMetric :=
  { timestamp := 0, metric_name := "queue_size", value := 5, unit := "items"
    threshold_warning := none, threshold_critical := some 0, metadata := none }

/-- Empty initial state of an `AlertManager` over an empty database. -/
def emptyAMState : AMState :=
  { recent_alerts := [], db := { metrics := [], alerts := [] }, notified := [] }

/-- State whose cooldown map already holds an entry for
`cpu_usage`/`critical` recorded at time 0. -/
def recentCritState : AMState :=
  { recent_alerts := [("cpu_usage_critical", 0)]
    db := { metrics := [], alerts := [] }
    notified := [] }

/-- An unresolved critical alert row for `cpu_usage` sitting in the store. -/
def activeAlertSeed : PerformanceAlert :=
  { timestamp := 0, alert_type := "critical", metric_name := "cpu_usage"
    current_value := 92, threshold := 85, message := "cpu_usage is critically high"
    severity := "critical", resolved := false, resolved_at := none }

/-- State whose database holds one unresolved alert for `cpu_usage`. -/
def activeAlertState : AMState :=
  { recent_alerts := [], db := { metrics := [], alerts := [activeAlertSeed] }
    notified := [] }

/-- An in-range `cpu_usage` sample (50 against warning 70, critical 85). -/
def cpuSample50 : PerformanceMetric :=
  { timestamp := 7, metric_name := "cpu_usage", value := 50, unit := "percent"
    threshold_warning := some 70, threshold_critical := some 85, metadata := none }

/-- Empty database. -/
def emptyDatabase : Database := { metrics := [], alerts := [] }

/-- A valid sample with a non-empty metadata mapping, used for the round-trip
witness. -/
def roundTripSample : PerformanceMetric :=
  { timestamp := 0, metric_name := "cpu_usage", value := 42, unit := "percent"
    threshold_warning := some 70, threshold_critical := some 85
    metadata := some [("cores", "8")] }

/-- A sample whose metadata is the empty mapping: Python treats it as falsy, so
`store_metric` persists `NULL` and the read-back sample has no metadata. -/
def emptyMetaSample : PerformanceMetric :=
  { timestamp := 0, metric_name := "cpu_usage", value := 42, unit := "percent"
    threshold_warning := some 70, threshold_critical := some 85
    metadata := some [] }

/-- Environment in which every system probe succeeds (one network probe
fails, which is recovered per-host). -/
def okSysEnv : SysEnv :=
  { cpu := Except.ok (50, [("cores", "8")])
    memory := Except.ok (60, [("total_gb", "16")])
    disk := Except.ok (40, [("total_gb", "500")])
    diskIoCounters := Except.ok (some (3, [("read_count", "100")]))
    loadavg := Except.ok (1, 2, 3)
    netProbeResults := [Except.ok 10, Except.error (), Except.ok 30] }

/-- Environment whose memory probe raises while every other probe, the disk
probe included, would succeed. -/
def memFailEnv : SysEnv :=
  { cpu := Except.ok (50, [("cores", "8")])
    memory := Except.error ()
    disk := Except.ok (40, [("total_gb", "500")])
    diskIoCounters := Except.ok (some (3, [("read_count", "100")]))
    loadavg := Except.ok (1, 2, 3)
    netProbeResults := [Except.ok 10] }

/-- A sample whose warning and critical thresholds are both set to 0. -/
def bothZeroSample : PerformanceMetric :=
  { timestamp := 0, metric_name := "error_rate", value := 5, unit := "percent"
    threshold_warning := some 0, threshold_critical := some 0, metadata := none }

/-- C1 — amended: a threshold takes part in the comparison only when it is set
to a nonzero value (the code's truthiness test `if metric.threshold_critical:`
skips a threshold equal to 0).  With that reading: a sample at or above its
nonzero critical threshold is classified critical (never warning); otherwise a
sample at or above its nonzero warning threshold is classified warning; and
every sample with nonzero `thresholdWarning <= value < thresholdCritical` is
classified warning. -/
theorem claim_C1 (active : List PerformanceAlert) (m : PerformanceMetric) :
    (∀ c : ℚ, m.threshold_critical = some c → c ≠ 0 → c ≤ m.value →
      classifyMetric active m = some (criticalAlertOf m) ∧
        (criticalAlertOf m).alert_type = "critical" ∧
        (criticalAlertOf m).alert_type ≠ "warning") ∧
    (∀ w : ℚ, critGuard m = false → m.threshold_warning = some w → w ≠ 0 →
      w ≤ m.value →
      classifyMetric active m = some (warningAlertOf m) ∧
        (warningAlertOf m).alert_type = "warning") ∧
    (∀ w c : ℚ, m.threshold_warning = some w → w ≠ 0 → m.threshold_critical = some c →
      w ≤ m.value → m.value < c →
      classifyMetric active m = some (warningAlertOf m)) := by
  refine ⟨?_, ?_, ?_⟩
  · intro c hc hne hle
    have hcrit : critGuard m = true := by
      simp [critGuard, hc, thresholdTruthy, hne, hle]
    refine ⟨by simp [classifyMetric, hcrit], rfl, ?_⟩
    show "critical" ≠ "warning"
    decide
  · intro w hcg hw hne hle
    have hwarn : warnGuard m = true := by
      simp [warnGuard, hw, thresholdTruthy, hne, hle]
    exact ⟨by simp [classifyMetric, hcg, hwarn], rfl⟩
  · intro w c hw hne hc hle hlt
    have hcg : critGuard m = false := by
      simp [critGuard, hc, thresholdTruthy, not_le.mpr hlt]
    have hwarn : warnGuard m = true := by
      simp [warnGuard, hw, thresholdTruthy, hne, hle]
    simp [classifyMetric, hcg, hwarn]

/-- C1 witness: the scenario sample is classified critical. -/
theorem claim_C1_witness :
    cpuSample92.threshold_critical = some 85 ∧ (85 : ℚ) ≠ 0 ∧
    (85 : ℚ) ≤ cpuSample92.value ∧
    classifyMetric [] cpuSample92 = some (criticalAlertOf cpuSample92) :=
  ⟨rfl, by decide, by decide,
    ((claim_C1 [] cpuSample92).1 85 rfl (by decide) (by decide)).1⟩

/-- C1 counterexample: a sample with `thresholdWarning = 0 <= value <
thresholdCritical = 10`, both thresholds present, is not classified at all
(classification is `none`, not warning), refuting the claim as stated. -/
theorem claim_C1_counterexample :
    warnZeroSample.threshold_warning = some 0 ∧
    warnZeroSample.threshold_critical = some 10 ∧
    warnZeroSample.threshold_warning.getD 99 ≤ warnZeroSample.value ∧
    warnZeroSample.value < warnZeroSample.threshold_critical.getD 0 ∧
    classifyMetric [] warnZeroSample = none := by
  refine ⟨rfl, rfl, by decide, by decide, ?_⟩
  decide

/-- The deduction loop of `_calculate_system_health` subtracts 20 per sample in
critical breach and 10 per remaining sample in warning breach. -/
theorem healthFold_fst (metrics : List PerformanceMetric) :
    ∀ (s0 : ℚ) (bs0 : List String),
      (List.foldl healthStep (s0, bs0) metrics).1 =
        s0 - 20 * (critBreachCount metrics : ℚ) - 10 * (warnBreachCount metrics : ℚ) := by
  induction metrics with
  | nil => intro s0 bs0; simp [critBreachCount, warnBreachCount]
  | cons m rest ih =>
    intro s0 bs0
    cases hc : critGuard m with
    | true =>
      simp only [List.foldl_cons, healthStep, hc, if_true]
      rw [ih]
      simp [critBreachCount, warnBreachCount, List.filter_cons, hc]
      ring
    | false =>
      cases hw : warnGuard m with
      | true =>
        simp only [List.foldl_cons, healthStep, hc, hw, if_true, if_false,
          Bool.false_eq_true]
        rw [ih]
        simp [critBreachCount, warnBreachCount, List.filter_cons, hc, hw]
        ring
      | false =>
        simp only [List.foldl_cons, healthStep, hc, hw, if_false, Bool.false_eq_true]
        rw [ih]
        simp [critBreachCount, warnBreachCount, List.filter_cons, hc, hw]

/-- Python `max` agrees with the lattice `max`. -/
theorem pyMax_eq (a b : ℚ) : pyMax a b = max a b := by
  rcases le_or_lt b a with h | h
  · simp [pyMax, h, max_eq_left h]
  · simp [pyMax, not_le.mpr h, max_eq_right h.le]

/-- Python `min` agrees with the lattice `min`. -/
theorem pyMin_eq (a b : ℚ) : pyMin a b = min a b := by
  rcases le_or_lt a b with h | h
  · simp [pyMin, h, min_eq_left h]
  · simp [pyMin, not_le.mpr h, min_eq_right h.le]

/-- The health score computed by `_calculate_system_health` equals the clamped
linear deduction formula. -/
theorem calculate_system_health_score (now : Int) (metrics : List PerformanceMetric)
    (alerts : List PerformanceAlert) :
    (calculate_system_health now metrics alerts).health_score =
      max 0 (min 100 (100 - 20 * (critBreachCount metrics : ℚ)
        - 10 * (warnBreachCount metrics : ℚ)
        - 15 * (criticalSeverityCount alerts : ℚ)
        - 5 * (warningSeverityCount alerts : ℚ))) := by
  simp only [calculate_system_health, criticalSeverityCount, warningSeverityCount]
  rw [healthFold_fst, pyMax_eq, pyMin_eq]
  congr 1
  congr 1
  ring

/-- Breakpoints of the status and grade ladder. -/
theorem statusGradeOf_spec (hs : ℚ) :
    (90 ≤ hs → statusGradeOf hs = ("healthy", "A")) ∧
    (75 ≤ hs → hs < 90 → statusGradeOf hs = ("good", "B")) ∧
    (60 ≤ hs → hs < 75 → statusGradeOf hs = ("degraded", "C")) ∧
    (40 ≤ hs → hs < 60 → statusGradeOf hs = ("poor", "D")) ∧
    (hs < 40 → statusGradeOf hs = ("critical", "F")) := by
  refine ⟨?_, ?_, ?_, ?_, ?_⟩
  · intro h
    rw [statusGradeOf, if_pos h]
  · intro h1 h2
    rw [statusGradeOf, if_neg (not_le.mpr h2), if_pos h1]
  · intro h1 h2
    rw [statusGradeOf, if_neg (not_le.mpr (h2.trans_le (by norm_num))),
      if_neg (not_le.mpr h2), if_pos h1]
  · intro h1 h2
    rw [statusGradeOf, if_neg (not_le.mpr (h2.trans_le (by norm_num))),
      if_neg (not_le.mpr (h2.trans_le (by norm_num))), if_neg (not_le.mpr h2),
      if_pos h1]
  · intro h
    rw [statusGradeOf, if_neg (not_le.mpr (h.trans_le (by norm_num))),
      if_neg (not_le.mpr (h.trans_le (by norm_num))),
      if_neg (not_le.mpr (h.trans_le (by norm_num))), if_neg (not_le.mpr h)]

/-- The status field is the first component of the ladder applied to the
computed score. -/
theorem calculate_system_health_status (now : Int) (metrics : List PerformanceMetric)
    (alerts : List PerformanceAlert) :
    (calculate_system_health now metrics alerts).status =
      (statusGradeOf (calculate_system_health now metrics alerts).health_score).1 :=
  rfl

/-- The grade field is the second component of the ladder applied to the
computed score. -/
theorem calculate_system_health_grade (now : Int) (metrics : List PerformanceMetric)
    (alerts : List PerformanceAlert) :
    (calculate_system_health now metrics alerts).performance_grade =
      (statusGradeOf (calculate_system_health now metrics alerts).health_score).2 :=
  rfl

/-- The scenario instance: one cpu sample at 92 with one critical alert scores
65, degraded, C. -/
theorem scenarioHealth65 (now : Int) :
    (calculate_system_health now [cpuSample92] [cpuCritAlert92]).health_score = 65 ∧
    (calculate_system_health now [cpuSample92] [cpuCritAlert92]).status = "degraded" ∧
    (calculate_system_health now [cpuSample92] [cpuCritAlert92]).performance_grade = "C" := by
  have h := calculate_system_health_score now [cpuSample92] [cpuCritAlert92]
  rw [show critBreachCount [cpuSample92] = 1 from by decide,
      show warnBreachCount [cpuSample92] = 0 from by decide,
      show criticalSeverityCount [cpuCritAlert92] = 1 from by decide,
      show warningSeverityCount [cpuCritAlert92] = 0 from by decide] at h
  have h65 : (calculate_system_health now [cpuSample92] [cpuCritAlert92]).health_score = 65 := by
    rw [h]
    norm_num [min_def, max_def]
  refine ⟨h65, ?_, ?_⟩
  · rw [calculate_system_health_status, h65]
    norm_num [statusGradeOf]
  · rw [calculate_system_health_grade, h65]
    norm_num [statusGradeOf]

/-- C2 — amended: a sample is counted against its critical (resp. warning)
threshold only when that threshold is set to a nonzero value; with breach
counted by the code's truthiness test, the health score is the clamped formula
`clamp(100 - 20*crit - 10*warn - 15*criticalAlerts - 5*warningAlerts, 0, 100)`,
the status/grade breakpoints are exact, and the single-sample scenario
(cpu_usage at 92, warning 70, critical 85, one critical alert) scores 65,
degraded, C. -/
theorem claim_C2 (now : Int) (metrics : List PerformanceMetric)
    (alerts : List PerformanceAlert) :
    (calculate_system_health now metrics alerts).health_score =
      max 0 (min 100 (100 - 20 * (critBreachCount metrics : ℚ)
        - 10 * (warnBreachCount metrics : ℚ)
        - 15 * (criticalSeverityCount alerts : ℚ)
        - 5 * (warningSeverityCount alerts : ℚ))) ∧
    (90 ≤ (calculate_system_health now metrics alerts).health_score →
      (calculate_system_health now metrics alerts).status = "healthy" ∧
      (calculate_system_health now metrics alerts).performance_grade = "A") ∧
    (75 ≤ (calculate_system_health now metrics alerts).health_score →
      (calculate_system_health now metrics alerts).health_score < 90 →
      (calculate_system_health now metrics alerts).status = "good" ∧
      (calculate_system_health now metrics alerts).performance_grade = "B") ∧
    (60 ≤ (calculate_system_health now metrics alerts).health_score →
      (calculate_system_health now metrics alerts).health_score < 75 →
      (calculate_system_health now metrics alerts).status = "degraded" ∧
      (calculate_system_health now metrics alerts).performance_grade = "C") ∧
    (40 ≤ (calculate_system_health now metrics alerts).health_score →
      (calculate_system_health now metrics alerts).health_score < 60 →
      (calculate_system_health now metrics alerts).status = "poor" ∧
      (calculate_system_health now metrics alerts).performance_grade = "D") ∧
    ((calculate_system_health now metrics alerts).health_score < 40 →
      (calculate_system_health now metrics alerts).status = "critical" ∧
      (calculate_system_health now metrics alerts).performance_grade = "F") ∧
    (calculate_system_health now [cpuSample92] [cpuCritAlert92]).health_score = 65 ∧
    (calculate_system_health now [cpuSample92] [cpuCritAlert92]).status = "degraded" ∧
    (calculate_system_health now [cpuSample92] [cpuCritAlert92]).performance_grade = "C" := by
  have hsc := calculate_system_health_score now metrics alerts
  have hst := calculate_system_health_status now metrics alerts
  have hgr := calculate_system_health_grade now metrics alerts
  have hb := statusGradeOf_spec (calculate_system_health now metrics alerts).health_score
  refine ⟨hsc, ?_, ?_, ?_, ?_, ?_, ?_, ?_, ?_⟩
  · intro h
    rw [hst, hgr, hb.1 h]
    exact ⟨rfl, rfl⟩
  · intro h1 h2
    rw [hst, hgr, hb.2.1 h1 h2]
    exact ⟨rfl, rfl⟩
  · intro h1 h2
    rw [hst, hgr, hb.2.2.1 h1 h2]
    exact ⟨rfl, rfl⟩
  · intro h1 h2
    rw [hst, hgr, hb.2.2.2.1 h1 h2]
    exact ⟨rfl, rfl⟩
  · intro h
    rw [hst, hgr, hb.2.2.2.2 h]
    exact ⟨rfl, rfl⟩
  · exact (scenarioHealth65 now).1
  · exact (scenarioHealth65 now).2.1
  · exact (scenarioHealth65 now).2.2

/-- C2 witness: with no samples and no alerts the score is 100 with status
healthy and grade A. -/
theorem claim_C2_witness :
    (90 : ℚ) ≤ (calculate_system_health 0 [] []).health_score ∧
    (calculate_system_health 0 [] []).status = "healthy" ∧
    (calculate_system_health 0 [] []).performance_grade = "A" :=
  ⟨by rw [(claim_C2 0 [] []).1]; norm_num [critBreachCount, warnBreachCount,
      criticalSeverityCount, warningSeverityCount],
    ((claim_C2 0 [] []).2.1 (by rw [(claim_C2 0 [] []).1]; norm_num [critBreachCount,
      warnBreachCount, criticalSeverityCount, warningSeverityCount])).1,
    ((claim_C2 0 [] []).2.1 (by rw [(claim_C2 0 [] []).1]; norm_num [critBreachCount,
      warnBreachCount, criticalSeverityCount, warningSeverityCount])).2⟩

/-- C2 counterexample: a sample whose critical threshold is 0 and whose value
is 5 satisfies `value >= thresholdCritical`, so the claim's formula deducts 20
(score 80), but the code deducts nothing (score 100): the claim as stated is
false at this input. -/
theorem claim_C2_counterexample :
    critZeroSample.threshold_critical = some 0 ∧
    critZeroSample.threshold_critical.getD 99 ≤ critZeroSample.value ∧
    specClaimHealthScore [critZeroSample] [] = 80 ∧
    (calculate_system_health 0 [critZeroSample] []).health_score = 100 ∧
    specClaimHealthScore [critZeroSample] [] ≠
      (calculate_system_health 0 [critZeroSample] []).health_score := by
  have hspec : specClaimHealthScore [critZeroSample] [] = 80 := by
    rw [specClaimHealthScore,
      show specCritCount [critZeroSample] = 1 from by decide,
      show specWarnCount [critZeroSample] = 0 from by decide,
      show criticalSeverityCount [] = 0 from rfl,
      show warningSeverityCount [] = 0 from rfl]
    norm_num [pyMax, pyMin]
  have hcode : (calculate_system_health 0 [critZeroSample] []).health_score = 100 := by
    rw [calculate_system_health_score 0 [critZeroSample] [],
      show critBreachCount [critZeroSample] = 0 from by decide,
      show warnBreachCount [critZeroSample] = 0 from by decide,
      show criticalSeverityCount [] = 0 from rfl,
      show warningSeverityCount [] = 0 from rfl]
    norm_num [min_def, max_def]
  refine ⟨rfl, by decide, hspec, hcode, ?_⟩
  rw [hspec, hcode]
  norm_num

/-- Reading back a freshly assigned key yields the written time. -/
theorem dict_get_dict_set_self (d : List (String × Int)) (k : String) (v : Int) :
    dict_get (dict_set d k v) k = some v := by
  simp [dict_get, dict_set]

/-- Classification under a breached (truthy) critical threshold. -/
theorem classify_crit (active : List PerformanceAlert) (m : PerformanceMetric)
    (h : critGuard m = true) :
    classifyMetric active m = some (criticalAlertOf m) := by
  simp [classifyMetric, h]

/-- Classification under a breached warning threshold when the critical branch
does not fire. -/
theorem classify_warn (active : List PerformanceAlert) (m : PerformanceMetric)
    (hc : critGuard m = false) (hw : warnGuard m = true) :
    classifyMetric active m = some (warningAlertOf m) := by
  simp [classifyMetric, hc, hw]

/-- Classification of an in-range sample with at least one active alert for the
same metric name. -/
theorem classify_recovery (active : List PerformanceAlert) (m : PerformanceMetric)
    (hc : critGuard m = false) (hw : warnGuard m = false)
    (hne : (active.filter (fun a => a.metric_name == m.metric_name)).isEmpty = false) :
    classifyMetric active m = some (recoveryAlertOf m) := by
  simp [classifyMetric, hc, hw, hne]

/-- Classification of an in-range sample with no active alert for the same
metric name. -/
theorem classify_none (active : List PerformanceAlert) (m : PerformanceMetric)
    (hc : critGuard m = false) (hw : warnGuard m = false)
    (he : (active.filter (fun a => a.metric_name == m.metric_name)).isEmpty = true) :
    classifyMetric active m = none := by
  simp [classifyMetric, hc, hw, he]

/-- `_send_alert` does not touch the cooldown dictionary. -/
theorem send_alert_recent_alerts (s : AMState) (a : PerformanceAlert) :
    (send_alert s a).recent_alerts = s.recent_alerts :=
  rfl

/-- An evaluator call that dispatches nothing leaves the state unchanged:
the suppression path returns before the dictionary assignment, so neither the
database, nor the notifications, nor the cooldown entry move. -/
theorem check_none_state (now : Int) (s : AMState) (m : PerformanceMetric)
    (h : (check_metric_thresholds now s m).1 = none) :
    (check_metric_thresholds now s m).2 = s := by
  unfold check_metric_thresholds at h ⊢
  cases hcls : classifyMetric (get_active_alerts s.db) m with
  | none => rfl
  | some a =>
    rw [hcls] at h
    cases hg : dict_get s.recent_alerts (cooldown_key a) with
    | none => simp [is_in_cooldown, hg] at h
    | some t =>
      by_cases hlt : now - t < alert_cooldown
      · simp [is_in_cooldown, hg, hlt]
      · simp [is_in_cooldown, hg, hlt] at h

/-- An evaluator call that dispatches its classification writes the current
time into the cooldown dictionary under the alert's key. -/
theorem check_dispatch_recent_alerts (now : Int) (s : AMState) (m : PerformanceMetric)
    (a : PerformanceAlert)
    (hcls : classifyMetric (get_active_alerts s.db) m = some a)
    (h : (check_metric_thresholds now s m).1 = some a) :
    (check_metric_thresholds now s m).2.recent_alerts =
      dict_set s.recent_alerts (cooldown_key a) now := by
  unfold check_metric_thresholds at h ⊢
  rw [hcls] at h ⊢
  cases hg : dict_get s.recent_alerts (cooldown_key a) with
  | none => simp [is_in_cooldown, hg, send_alert]
  | some t =>
    by_cases hlt : now - t < alert_cooldown
    · simp [is_in_cooldown, hg, hlt] at h
    · simp [is_in_cooldown, hg, hlt, send_alert]

/-- C3 — corrected: an evaluation that reaches the cooldown check updates the
shared cooldown entry for `(metricName, alertType)` to the current time exactly
when the dispatch is not suppressed; a suppressed attempt returns before the
assignment and leaves the whole state, including the cooldown entry,
unchanged. -/
theorem claim_C3 (now : Int) (s : AMState) (m : PerformanceMetric)
    (a : PerformanceAlert)
    (hcls : classifyMetric (get_active_alerts s.db) m = some a) :
    ((check_metric_thresholds now s m).1 = some a →
      dict_get (check_metric_thresholds now s m).2.recent_alerts (cooldown_key a) =
        some now) ∧
    ((check_metric_thresholds now s m).1 = none →
      (check_metric_thresholds now s m).2 = s) := by
  constructor
  · intro h
    rw [check_dispatch_recent_alerts now s m a hcls h, dict_get_dict_set_self]
  · exact check_none_state now s m

/-- C3 witness: a dispatched critical alert from the empty state records the
dispatch time 1000 under `cpu_usage_critical`. -/
theorem claim_C3_witness :
    classifyMetric (get_active_alerts emptyAMState.db) cpuSample92 =
      some (criticalAlertOf cpuSample92) ∧
    dict_get (check_metric_thresholds 1000 emptyAMState cpuSample92).2.recent_alerts
      (cooldown_key (criticalAlertOf cpuSample92)) = some 1000 :=
  ⟨by decide,
    (claim_C3 1000 emptyAMState cpuSample92 (criticalAlertOf cpuSample92)
      (by decide)).1 (by decide)⟩

/-- C3 counterexample: with a cooldown entry recorded at time 0, an evaluation
at time 60 classifies critical (so it reaches the cooldown check), is
suppressed, and leaves the entry at 0 instead of updating it to 60 — refuting
the claim that every evaluation reaching the check resets the window. -/
theorem claim_C3_counterexample :
    classifyMetric (get_active_alerts recentCritState.db) cpuSample92 =
      some (criticalAlertOf cpuSample92) ∧
    (check_metric_thresholds 60 recentCritState cpuSample92).1 = none ∧
    (check_metric_thresholds 60 recentCritState cpuSample92).2.recent_alerts =
      [("cpu_usage_critical", 0)] ∧
    dict_get (check_metric_thresholds 60 recentCritState cpuSample92).2.recent_alerts
      "cpu_usage_critical" ≠ some 60 := by
  refine ⟨by decide, by decide, by decide, by decide⟩

/-- The dispatched alert, when any, is the classification of the sample. -/
theorem check_fst_none_or_classify (now : Int) (s : AMState) (m : PerformanceMetric) :
    (check_metric_thresholds now s m).1 = none ∨
    (check_metric_thresholds now s m).1 = classifyMetric (get_active_alerts s.db) m := by
  unfold check_metric_thresholds
  cases hcls : classifyMetric (get_active_alerts s.db) m with
  | none => left; rfl
  | some a =>
    cases hcool : (is_in_cooldown now s.recent_alerts a).1 with
    | true => left; simp [hcool]
    | false => right; simp [hcool]

/-- An existing cooldown entry within the window makes the check report
suppression and keep the dictionary untouched. -/
theorem is_in_cooldown_true (now : Int) (ra : List (String × Int))
    (a : PerformanceAlert) (t : Int)
    (hg : dict_get ra (cooldown_key a) = some t) (hlt : now - t < alert_cooldown) :
    is_in_cooldown now ra a = (true, ra) := by
  simp [is_in_cooldown, hg, hlt]

/-- A classified sample whose cooldown check reports suppression dispatches
nothing. -/
theorem check_suppressed (now : Int) (s : AMState) (m : PerformanceMetric)
    (a : PerformanceAlert)
    (hcls : classifyMetric (get_active_alerts s.db) m = some a)
    (hcool : (is_in_cooldown now s.recent_alerts a).1 = true) :
    (check_metric_thresholds now s m).1 = none := by
  unfold check_metric_thresholds
  rw [hcls]
  simp [hcool]

/-- C4: two critical classifications for the same metric within the 15-minute
cooldown window dispatch at most one alert; an evaluation that dispatches
nothing returns null and leaves the state — database rows and notifications
included — unchanged. -/
theorem claim_C4 (s0 : AMState) (t1 t2 : Int) (m1 m2 : PerformanceMetric)
    (hname : m1.metric_name = m2.metric_name)
    (h1 : critGuard m1 = true) (h2 : critGuard m2 = true)
    (_h12 : t1 ≤ t2) (hwin : t2 - t1 < alert_cooldown) :
    ¬((check_metric_thresholds t1 s0 m1).1.isSome = true ∧
      (check_metric_thresholds t2 (check_metric_thresholds t1 s0 m1).2 m2).1.isSome = true) ∧
    ((check_metric_thresholds t1 s0 m1).1 = none →
      (check_metric_thresholds t1 s0 m1).2 = s0) ∧
    ((check_metric_thresholds t2 (check_metric_thresholds t1 s0 m1).2 m2).1 = none →
      (check_metric_thresholds t2 (check_metric_thresholds t1 s0 m1).2 m2).2 =
        (check_metric_thresholds t1 s0 m1).2) := by
  refine ⟨?_, check_none_state t1 s0 m1, check_none_state t2 _ m2⟩
  rintro ⟨hs1, hs2⟩
  have hc1 : classifyMetric (get_active_alerts s0.db) m1 = some (criticalAlertOf m1) :=
    classify_crit _ _ h1
  have hr1 : (check_metric_thresholds t1 s0 m1).1 = some (criticalAlertOf m1) := by
    rcases check_fst_none_or_classify t1 s0 m1 with h | h
    · rw [h] at hs1; simp at hs1
    · rw [h, hc1]
  have hra : (check_metric_thresholds t1 s0 m1).2.recent_alerts =
      dict_set s0.recent_alerts (cooldown_key (criticalAlertOf m1)) t1 :=
    check_dispatch_recent_alerts t1 s0 m1 (criticalAlertOf m1) hc1 hr1
  have hc2 : classifyMetric (get_active_alerts (check_metric_thresholds t1 s0 m1).2.db) m2 =
      some (criticalAlertOf m2) :=
    classify_crit _ _ h2
  have hkey : cooldown_key (criticalAlertOf m2) = cooldown_key (criticalAlertOf m1) := by
    simp [cooldown_key, criticalAlertOf, hname]
  have hg2 : dict_get (check_metric_thresholds t1 s0 m1).2.recent_alerts
      (cooldown_key (criticalAlertOf m2)) = some t1 := by
    rw [hkey, hra, dict_get_dict_set_self]
  have hcool2 : (is_in_cooldown t2 (check_metric_thresholds t1 s0 m1).2.recent_alerts
      (criticalAlertOf m2)).1 = true := by
    rw [is_in_cooldown_true t2 _ _ t1 hg2 hwin]
  have : (check_metric_thresholds t2 (check_metric_thresholds t1 s0 m1).2 m2).1 = none :=
    check_suppressed t2 _ m2 (criticalAlertOf m2) hc2 hcool2
  rw [this] at hs2
  simp at hs2

/-- C4 witness: two critical cpu samples evaluated at times 0 and 60 from the
empty state dispatch at most one alert. -/
theorem claim_C4_witness :
    critGuard cpuSample92 = true ∧ (0 : Int) ≤ 60 ∧ (60 : Int) - 0 < alert_cooldown ∧
    ¬((check_metric_thresholds 0 emptyAMState cpuSample92).1.isSome = true ∧
      (check_metric_thresholds 60 (check_metric_thresholds 0 emptyAMState cpuSample92).2
        cpuSample92).1.isSome = true) :=
  ⟨by decide, by decide, by decide,
    (claim_C4 emptyAMState 0 60 cpuSample92 cpuSample92 rfl (by decide) (by decide)
      (by decide) (by decide)).1⟩

/-- C5: an in-range sample (neither threshold branch fires) for a metric with
at least one active alert is classified as an immediately-resolved recovery
alert referencing that metric; with no active alert for the name, the
evaluation returns null and changes nothing. -/
theorem claim_C5 (now : Int) (s : AMState) (m : PerformanceMetric)
    (hc : critGuard m = false) (hw : warnGuard m = false) :
    (get_recent_alerts_for_metric s.db m.metric_name ≠ [] →
      classifyMetric (get_active_alerts s.db) m = some (recoveryAlertOf m) ∧
      (recoveryAlertOf m).alert_type = "recovery" ∧
      (recoveryAlertOf m).resolved = true ∧
      (recoveryAlertOf m).resolved_at = some m.timestamp ∧
      (recoveryAlertOf m).metric_name = m.metric_name) ∧
    (get_recent_alerts_for_metric s.db m.metric_name = [] →
      check_metric_thresholds now s m = (none, s)) := by
  constructor
  · intro hne
    have hne' : ((get_active_alerts s.db).filter
        (fun a => a.metric_name == m.metric_name)).isEmpty = false :=
      List.isEmpty_eq_false.mpr hne
    exact ⟨classify_recovery _ _ hc hw hne', rfl, rfl, rfl, rfl⟩
  · intro he
    have he' : ((get_active_alerts s.db).filter
        (fun a => a.metric_name == m.metric_name)).isEmpty = true :=
      List.isEmpty_eq_true.mpr he
    unfold check_metric_thresholds
    rw [classify_none _ _ hc hw he']

/-- C5 witness: an in-range cpu sample over a store holding one unresolved
cpu alert classifies recovery; over the empty store the evaluation returns
null and leaves the state unchanged. -/
theorem claim_C5_witness :
    critGuard cpuSample50 = false ∧ warnGuard cpuSample50 = false ∧
    get_recent_alerts_for_metric activeAlertState.db cpuSample50.metric_name ≠ [] ∧
    classifyMetric (get_active_alerts activeAlertState.db) cpuSample50 =
      some (recoveryAlertOf cpuSample50) ∧
    check_metric_thresholds 0 emptyAMState cpuSample50 = (none, emptyAMState) :=
  ⟨by decide, by decide, by decide,
    ((claim_C5 0 activeAlertState cpuSample50 (by decide) (by decide)).1 (by decide)).1,
    (claim_C5 0 emptyAMState cpuSample50 (by decide) (by decide)).2 (by decide)⟩

/-- C6 — amended: the health computation depends only on its arguments and the
single clock reading it stamps into the `timestamp` field.  Two invocations
with equal sample batches and equal alert lists agree on every field except
`timestamp`, and invocations with the same clock reading are equal in every
field. -/
theorem claim_C6 (t1 t2 : Int) (metrics : List PerformanceMetric)
    (alerts : List PerformanceAlert) :
    (calculate_system_health t1 metrics alerts).health_score =
      (calculate_system_health t2 metrics alerts).health_score ∧
    (calculate_system_health t1 metrics alerts).status =
      (calculate_system_health t2 metrics alerts).status ∧
    (calculate_system_health t1 metrics alerts).active_alerts =
      (calculate_system_health t2 metrics alerts).active_alerts ∧
    (calculate_system_health t1 metrics alerts).performance_grade =
      (calculate_system_health t2 metrics alerts).performance_grade ∧
    (calculate_system_health t1 metrics alerts).bottlenecks =
      (calculate_system_health t2 metrics alerts).bottlenecks ∧
    (calculate_system_health t1 metrics alerts).recommendations =
      (calculate_system_health t2 metrics alerts).recommendations ∧
    (t1 = t2 →
      calculate_system_health t1 metrics alerts = calculate_system_health t2 metrics alerts) := by
  refine ⟨rfl, rfl, rfl, rfl, rfl, rfl, ?_⟩
  intro h
  rw [h]

/-- C6 witness: with the same clock reading the two snapshots coincide. -/
theorem claim_C6_witness :
    (0 : Int) = 0 ∧
    calculate_system_health 0 [] [] = calculate_system_health 0 [] [] :=
  ⟨rfl, (claim_C6 0 0 [] []).2.2.2.2.2.2 rfl⟩

/-- C6 counterexample: the function reads the clock, so two invocations on the
same empty batch and alert list differ in the `timestamp` field — the snapshots
are not equal in every field, refuting the claim as stated. -/
theorem claim_C6_counterexample :
    (calculate_system_health 0 [] []).timestamp ≠
      (calculate_system_health 1 [] []).timestamp ∧
    calculate_system_health 0 [] [] ≠ calculate_system_health 1 [] [] :=
  ⟨by decide, fun h => absurd (congrArg SystemHealth.timestamp h) (by decide)⟩

/-- C7 — amended: writing a sample whose metadata is absent or non-empty and
reading it back through `get_recent_metrics` with a window covering its
timestamp returns a sample equal to the original in every field (an empty
metadata mapping is persisted as NULL and reads back as absent). -/
theorem claim_C7 (db : Database) (m : PerformanceMetric) (now hours : Int)
    (hwin : now - hours * 3600 ≤ m.timestamp)
    (hmd : m.metadata ≠ some []) :
    m ∈ get_recent_metrics (store_metric db m) m.metric_name now hours := by
  have hmeta : (if metadataTruthy m.metadata then m.metadata else none) = m.metadata := by
    cases hm : m.metadata with
    | none => simp [metadataTruthy]
    | some l =>
      cases l with
      | nil => exact absurd hm hmd
      | cons x xs => simp [metadataTruthy]
  unfold get_recent_metrics orderByTimestampDescM store_metric
  refine List.mem_map.mpr ⟨metricRowOf m, ?_, ?_⟩
  · refine (List.mem_insertionSort _).mpr ?_
    refine List.mem_filter.mpr ⟨?_, ?_⟩
    · exact List.mem_append.mpr (Or.inr (List.mem_singleton.mpr rfl))
    · simp [metricRowOf, hwin]
  · obtain ⟨ts, name, v, u, tw, tc, md⟩ := m
    simp [rowToMetric, metricRowOf]
    simpa using hmeta

/-- C7 witness: the round-trip sample with non-empty metadata is returned
unchanged. -/
theorem claim_C7_witness :
    (0 : Int) - 1 * 3600 ≤ roundTripSample.timestamp ∧
    roundTripSample.metadata ≠ some [] ∧
    roundTripSample ∈ get_recent_metrics (store_metric emptyDatabase roundTripSample)
      roundTripSample.metric_name 0 1 :=
  ⟨by decide, by decide,
    claim_C7 emptyDatabase roundTripSample 0 1 (by decide) (by decide)⟩

/-- C7 counterexample: the sample with an empty metadata mapping is stored, its
row is returned by the query, but no returned sample equals the original in
every field — the metadata comes back as `none`, refuting the claim as
stated. -/
theorem claim_C7_counterexample :
    emptyMetaSample.metadata = some [] ∧
    (get_recent_metrics (store_metric emptyDatabase emptyMetaSample)
      emptyMetaSample.metric_name 0 0).length = 1 ∧
    emptyMetaSample ∉ get_recent_metrics (store_metric emptyDatabase emptyMetaSample)
      emptyMetaSample.metric_name 0 0 := by
  refine ⟨rfl, by decide, by decide⟩

/-- C8 — amended: `collect_metrics` never propagates a sub-step failure (the
surrounding `try` returns the samples accumulated so far), the load-average,
network and disk-I/O probes recover locally without aborting anything, and a
sample collected before a failing sub-step is still returned; however an
exception escaping one sub-step skips the remaining sub-steps of the same
collector instead of continuing with them. -/
theorem claim_C8 (ts : Int) (env : SysEnv) :
    (∀ v md, env.cpu = Except.ok (v, md) →
      sysMetric ts "cpu_usage" "percent" v (some md) ∈ sys_collect_metrics ts env) ∧
    (∀ pc pm pd pio, env.cpu = Except.ok pc → env.memory = Except.ok pm →
      env.disk = Except.ok pd → env.diskIoCounters = Except.ok pio →
      sys_collect_metrics ts env =
        [sysMetric ts "cpu_usage" "percent" pc.1 (some pc.2),
         sysMetric ts "memory_usage" "percent" pm.1 (some pm.2),
         sysMetric ts "disk_usage" "percent" pd.1 (some pd.2)] ++
        diskIoStepMetrics ts pio ++
        loadStepMetrics ts env.loadavg ++
        netStepMetrics ts env.netProbeResults) := by
  constructor
  · intro v md h
    simp [sys_collect_metrics, sys_steps, run_sub_steps, h, Except.map]
  · intro pc pm pd pio hc hm hd hio
    simp [sys_collect_metrics, sys_steps, run_sub_steps, hc, hm, hd, hio, Except.map]

/-- C8 witness: with all probes succeeding, collection returns the cpu, memory,
disk, disk-I/O, load-average and network samples in order. -/
theorem claim_C8_witness :
    okSysEnv.cpu = Except.ok (50, [("cores", "8")]) ∧
    okSysEnv.memory = Except.ok (60, [("total_gb", "16")]) ∧
    okSysEnv.disk = Except.ok (40, [("total_gb", "500")]) ∧
    okSysEnv.diskIoCounters = Except.ok (some (3, [("read_count", "100")])) ∧
    sys_collect_metrics 0 okSysEnv =
      [sysMetric 0 "cpu_usage" "percent" 50 (some [("cores", "8")]),
       sysMetric 0 "memory_usage" "percent" 60 (some [("total_gb", "16")]),
       sysMetric 0 "disk_usage" "percent" 40 (some [("total_gb", "500")])] ++
      diskIoStepMetrics 0 (some (3, [("read_count", "100")])) ++
      loadStepMetrics 0 (Except.ok (1, 2, 3)) ++
      netStepMetrics 0 [Except.ok 10, Except.error (), Except.ok 30] :=
  ⟨rfl, rfl, rfl, rfl,
    (claim_C8 0 okSysEnv).2 (50, [("cores", "8")]) (60, [("total_gb", "16")])
      (40, [("total_gb", "500")]) (some (3, [("read_count", "100")])) rfl rfl rfl rfl⟩

/-- C8 counterexample: with the memory probe raising, collection returns only
the cpu sample — the disk probe would succeed, yet its sample is missing,
refuting the claim that one failed sub-step never prevents the other sub-steps'
samples from being returned. -/
theorem claim_C8_counterexample :
    memFailEnv.disk = Except.ok (40, [("total_gb", "500")]) ∧
    sys_collect_metrics 0 memFailEnv =
      [sysMetric 0 "cpu_usage" "percent" 50 (some [("cores", "8")])] ∧
    sysMetric 0 "disk_usage" "percent" 40 (some [("total_gb", "500")]) ∉
      sys_collect_metrics 0 memFailEnv := by
  refine ⟨rfl, by decide, by decide⟩

/-- Every non-null classification is one of the three alert shapes, matching
the branch that produced it. -/
theorem classify_shape (active : List PerformanceAlert) (m : PerformanceMetric)
    (a : PerformanceAlert) (h : classifyMetric active m = some a) :
    (critGuard m = true ∧ a = criticalAlertOf m) ∨
    (critGuard m = false ∧ warnGuard m = true ∧ a = warningAlertOf m) ∨
    (critGuard m = false ∧ warnGuard m = false ∧ a = recoveryAlertOf m) := by
  unfold classifyMetric at h
  cases hc : critGuard m with
  | true =>
    rw [hc, if_pos rfl] at h
    exact Or.inl ⟨rfl, (Option.some.inj h).symm⟩
  | false =>
    rw [hc] at h
    simp only [Bool.false_eq_true, if_false] at h
    cases hw : warnGuard m with
    | true =>
      rw [hw, if_pos rfl] at h
      exact Or.inr (Or.inl ⟨rfl, rfl, (Option.some.inj h).symm⟩)
    | false =>
      rw [hw] at h
      simp only [Bool.false_eq_true, if_false] at h
      by_cases hemp : (active.filter (fun x => x.metric_name == m.metric_name)).isEmpty = true
      · rw [if_pos hemp] at h
        exact absurd h (by simp)
      · rw [if_neg hemp] at h
        exact Or.inr (Or.inr ⟨rfl, rfl, (Option.some.inj h).symm⟩)

/-- C9: a threshold equal to 0 is falsy to the code, so it can never fire the
corresponding branch: a `thresholdCritical` of 0 never classifies critical and
never deducts the critical penalty, a `thresholdWarning` of 0 never classifies
warning and never deducts the warning penalty, and a sample with both
thresholds 0 leaves the health score at 100. -/
theorem claim_C9 (now : Int) (active : List PerformanceAlert) (m : PerformanceMetric) :
    (m.threshold_critical = some 0 →
      critGuard m = false ∧
      ∀ a, classifyMetric active m = some a → a.alert_type ≠ "critical") ∧
    (m.threshold_warning = some 0 →
      warnGuard m = false ∧
      ∀ a, classifyMetric active m = some a → a.alert_type ≠ "warning") ∧
    (m.threshold_critical = some 0 → m.threshold_warning = some 0 →
      (calculate_system_health now [m] []).health_score = 100) := by
  refine ⟨?_, ?_, ?_⟩
  · intro h0
    have hcg : critGuard m = false := by simp [critGuard, h0, thresholdTruthy]
    refine ⟨hcg, ?_⟩
    intro a ha
    rcases classify_shape active m a ha with ⟨hc, _⟩ | ⟨_, _, rfl⟩ | ⟨_, _, rfl⟩
    · rw [hcg] at hc
      exact absurd hc (by simp)
    · show "warning" ≠ "critical"
      decide
    · show "recovery" ≠ "critical"
      decide
  · intro h0
    have hwg : warnGuard m = false := by simp [warnGuard, h0, thresholdTruthy]
    refine ⟨hwg, ?_⟩
    intro a ha
    rcases classify_shape active m a ha with ⟨_, rfl⟩ | ⟨_, hw, _⟩ | ⟨_, _, rfl⟩
    · show "critical" ≠ "warning"
      decide
    · rw [hwg] at hw
      exact absurd hw (by simp)
    · show "recovery" ≠ "warning"
      decide
  · intro hc0 hw0
    have hcg : critGuard m = false := by simp [critGuard, hc0, thresholdTruthy]
    have hwg : warnGuard m = false := by simp [warnGuard, hw0, thresholdTruthy]
    rw [calculate_system_health_score now [m] [],
      show critBreachCount [m] = 0 from by simp [critBreachCount, hcg],
      show warnBreachCount [m] = 0 from by simp [warnBreachCount, hcg, hwg],
      show criticalSeverityCount [] = 0 from rfl,
      show warningSeverityCount [] = 0 from rfl]
    norm_num [min_def, max_def]

/-- C9 witness: the sample with both thresholds 0 and value 5 fires neither
branch and scores 100. -/
theorem claim_C9_witness :
    bothZeroSample.threshold_critical = some 0 ∧
    bothZeroSample.threshold_warning = some 0 ∧
    critGuard bothZeroSample = false ∧
    warnGuard bothZeroSample = false ∧
    (calculate_system_health 0 [bothZeroSample] []).health_score = 100 :=
  ⟨rfl, rfl,
    ((claim_C9 0 [] bothZeroSample).1 rfl).1,
    ((claim_C9 0 [] bothZeroSample).2.1 rfl).1,
    (claim_C9 0 [] bothZeroSample).2.2 rfl rfl⟩

/-- Inserting a new alert row preserves every active alert. -/
theorem active_store_alert (db : Database) (x : PerformanceAlert)
    (a0 : PerformanceAlert) (h : a0 ∈ get_active_alerts db) :
    a0 ∈ get_active_alerts (store_alert db x) := by
  unfold get_active_alerts orderByTimestampDescA at h ⊢
  rw [List.mem_insertionSort] at h ⊢
  rw [List.mem_filter] at h ⊢
  refine ⟨?_, h.2⟩
  show a0 ∈ (store_alert db x).alerts
  rw [store_alert]
  exact List.mem_append_left _ h.1

/-- One evaluator call either leaves the alert table alone or appends one
row. -/
theorem check_db_alerts (now : Int) (s : AMState) (m : PerformanceMetric) :
    (check_metric_thresholds now s m).2.db = s.db ∨
    ∃ a, (check_metric_thresholds now s m).2.db = store_alert s.db a := by
  unfold check_metric_thresholds
  cases hcls : classifyMetric (get_active_alerts s.db) m with
  | none => exact Or.inl rfl
  | some a =>
    cases hcool : (is_in_cooldown now s.recent_alerts a).1 with
    | true => exact Or.inl (by simp [hcool])
    | false => exact Or.inr ⟨a, by simp [hcool, send_alert]⟩

/-- A dispatching evaluator call appends exactly the dispatched alert to the
alert table. -/
theorem check_dispatch_db_alerts (now : Int) (s : AMState) (m : PerformanceMetric)
    (a : PerformanceAlert)
    (hcls : classifyMetric (get_active_alerts s.db) m = some a)
    (h : (check_metric_thresholds now s m).1 = some a) :
    (check_metric_thresholds now s m).2.db.alerts = s.db.alerts ++ [a] := by
  unfold check_metric_thresholds at h ⊢
  rw [hcls] at h ⊢
  cases hcool : (is_in_cooldown now s.recent_alerts a).1 with
  | true => simp [hcool] at h
  | false => simp [hcool, send_alert, store_alert]

/-- Every core operation preserves every active alert. -/
theorem active_applyOp (s : AMState) (op : CoreOp) (a0 : PerformanceAlert)
    (h : a0 ∈ get_active_alerts s.db) :
    a0 ∈ get_active_alerts (applyOp s op).db := by
  cases op with
  | opStoreMetric m => exact h
  | opStoreAlert x => exact active_store_alert s.db x a0 h
  | opEvaluate t m =>
    rcases check_db_alerts t s m with hdb | ⟨a, hdb⟩
    · show a0 ∈ get_active_alerts (check_metric_thresholds t s m).2.db
      rw [hdb]
      exact h
    · show a0 ∈ get_active_alerts (check_metric_thresholds t s m).2.db
      rw [hdb]
      exact active_store_alert s.db a a0 h

/-- Every sequence of core operations preserves every active alert. -/
theorem active_applyOps (ops : List CoreOp) (s : AMState) (a0 : PerformanceAlert)
    (h : a0 ∈ get_active_alerts s.db) :
    a0 ∈ get_active_alerts (applyOps s ops).db := by
  induction ops generalizing s with
  | nil => exact h
  | cons op rest ih => exact ih (applyOp s op) (active_applyOp s op a0 h)

/-- A member of a list with a matching name makes the name-filter
non-empty. -/
theorem filter_name_ne_nil (l : List PerformanceAlert) (a0 : PerformanceAlert)
    (name : String) (hmem : a0 ∈ l) (hname : a0.metric_name = name) :
    (l.filter (fun a => a.metric_name == name)).isEmpty = false := by
  have hmf : a0 ∈ l.filter (fun a => a.metric_name == name) :=
    List.mem_filter.mpr ⟨hmem, by simp [hname]⟩
  exact List.isEmpty_eq_false.mpr (List.ne_nil_of_mem hmf)

/-- C10: core operations never update an existing alert row.  Under any
sequence of store and evaluate operations every active alert stays active; a
dispatched recovery alert is appended as a new row already `resolved = true`
(so it never joins the active set and the original row stays); and a later
in-range sample for the metric of a surviving active alert still classifies
recovery. -/
theorem claim_C10 (ops : List CoreOp) (s : AMState) (a0 : PerformanceAlert)
    (h : a0 ∈ get_active_alerts s.db) :
    a0 ∈ get_active_alerts (applyOps s ops).db ∧
    (∀ now m a, (check_metric_thresholds now (applyOps s ops) m).1 = some a →
      a.alert_type = "recovery" →
      a.resolved = true ∧
      (check_metric_thresholds now (applyOps s ops) m).2.db.alerts =
        (applyOps s ops).db.alerts ++ [a] ∧
      a0 ∈ get_active_alerts (check_metric_thresholds now (applyOps s ops) m).2.db) ∧
    (∀ m2, critGuard m2 = false → warnGuard m2 = false →
      m2.metric_name = a0.metric_name →
      classifyMetric (get_active_alerts (applyOps s ops).db) m2 =
        some (recoveryAlertOf m2)) := by
  have hact : a0 ∈ get_active_alerts (applyOps s ops).db :=
    active_applyOps ops s a0 h
  refine ⟨hact, ?_, ?_⟩
  · intro now m a hdisp htype
    have hcls : classifyMetric (get_active_alerts (applyOps s ops).db) m = some a := by
      rcases check_fst_none_or_classify now (applyOps s ops) m with hn | hc
      · rw [hn] at hdisp
        exact absurd hdisp (by simp)
      · rw [hc] at hdisp
        exact hdisp
    have hres : a.resolved = true := by
      rcases classify_shape _ m a hcls with ⟨_, rfl⟩ | ⟨_, _, rfl⟩ | ⟨_, _, rfl⟩
      · exact absurd htype (by show "critical" ≠ "recovery"; decide)
      · exact absurd htype (by show "warning" ≠ "recovery"; decide)
      · rfl
    refine ⟨hres, check_dispatch_db_alerts now (applyOps s ops) m a hcls hdisp, ?_⟩
    rcases check_db_alerts now (applyOps s ops) m with hdb | ⟨x, hdb⟩
    · rw [hdb]
      exact hact
    · rw [hdb]
      exact active_store_alert _ x a0 hact
  · intro m2 hc hw hname
    refine classify_recovery _ m2 hc hw ?_
    exact filter_name_ne_nil _ a0 m2.metric_name hact hname.symm

/-- C10 witness: starting from a store with one unresolved cpu alert, an
evaluate operation on an in-range cpu sample (which dispatches a recovery)
keeps the original alert active, and a later in-range cpu sample still
classifies recovery. -/
theorem claim_C10_witness :
    activeAlertSeed ∈ get_active_alerts activeAlertState.db ∧
    activeAlertSeed ∈ get_active_alerts
      (applyOps activeAlertState [CoreOp.opEvaluate 3 cpuSample50]).db ∧
    classifyMetric
      (get_active_alerts (applyOps activeAlertState [CoreOp.opEvaluate 3 cpuSample50]).db)
      cpuSample50 = some (recoveryAlertOf cpuSample50) :=
  ⟨by decide,
    (claim_C10 [CoreOp.opEvaluate 3 cpuSample50] activeAlertState activeAlertSeed
      (by decide)).1,
    (claim_C10 [CoreOp.opEvaluate 3 cpuSample50] activeAlertState activeAlertSeed
      (by decide)).2.2 cpuSample50 (by decide) (by decide) rfl⟩
